import Mathlib

/-!
# JNI helpers of the OmniOperator Spark extension

Source: `omnioperator/omniop-spark-extension/cpp/src/jni/jni_common.cpp`.

The three helpers call the Java Native Interface through the function table
reached from `JNIEnv* env`.  The embedding passes the environment state
explicitly: a helper takes the function table and the state before the call
and yields its C++ return value with the state after the call.  `none` stands
for undefined behaviour of the C++ program (a null or dangling pointer or
handle given to an operation that needs a live one).
-/

namespace JniCommon

/-! ## Handles and values exchanged with the environment -/

/-- A JNI object handle: the null handle, a local reference or a global
reference.  `jclass` and `jstring` are `jobject` in `jni.h`. -/
inductive jobject where
  | null
  | localRef (n : Nat)
  | globalRef (n : Nat)
deriving DecidableEq, Repr

abbrev jclass := jobject
abbrev jstring := jobject

/-- The method a `jmethodID` designates. -/
structure MethodRef where
  cls : String
  name : String
  sig : String
deriving DecidableEq, Repr

/-- A `jmethodID`; `none` is the null descriptor. -/
abbrev jmethodID := Option MethodRef

/-- A `const char*`: an address in native memory, `0` being the null pointer. -/
abbrev CharPtr := Nat

/-- The bytes of a `std::string`. -/
abbrev std_string := List Nat

/-- The function table behind `JNIEnv*` (the members `jni_common.cpp` calls,
and `DeleteGlobalRef`, with which a caller releases what
`CreateGlobalClassReference` returns), over an environment state `σ`, together
with the read of a NUL-terminated character array from native memory that
`std::string(const char*)` performs. -/
structure JNINativeInterface_ (σ : Type) where
  FindClass : σ → String → Option (jclass × σ)
  NewGlobalRef : σ → jobject → Option (jobject × σ)
  DeleteLocalRef : σ → jobject → Option σ
  DeleteGlobalRef : σ → jobject → Option σ
  GetMethodID : σ → jclass → String → String → Option (jmethodID × σ)
  GetStringUTFChars : σ → jstring → Option (CharPtr × σ)
  ReleaseStringUTFChars : σ → jstring → CharPtr → Option σ
  readCString : σ → CharPtr → Option std_string

/-! ## The helpers of `jni_common.cpp` -/

/-- The helper `spark::CompressionKind GetCompressionType(JNIEnv* env, jstring
codec_jstr)` (lines 25-31).  The enumeration `κ` and the overload
`GetCompressionType(std::string)` are declared outside this file and are
parameters: `m codec = .ok k` is the overload returning `k`, and
`m codec = .error e` is the overload throwing the C++ exception `e`.  An
exception thrown at line 28 leaves the function there, so lines 29-30 do not
run.  `isCopy` is passed as `JNI_FALSE`, the null pointer, so nothing is written
through it. -/
def GetCompressionType {σ ε κ : Type} (jni : JNINativeInterface_ σ)
    (m : std_string → Except ε κ) (env : σ) (codec_jstr : jstring) :
    Option (Except ε κ × σ) :=
  -- auto codec_c = env->GetStringUTFChars(codec_jstr, JNI_FALSE);
  match jni.GetStringUTFChars env codec_jstr with
  | none => none
  | some (codec_c, env1) =>
    -- auto codec = std::string(codec_c);
    match jni.readCString env1 codec_c with
    | none => none
    | some codec =>
      -- auto compression_type = GetCompressionType(codec);
      match m codec with
      | .error e => some (.error e, env1)
      | .ok compression_type =>
        -- env->ReleaseStringUTFChars(codec_jstr, codec_c);
        match jni.ReleaseStringUTFChars env1 codec_jstr codec_c with
        | none => none
        -- return compression_type;
        | some env2 => some (.ok compression_type, env2)

/-- The helper `jclass CreateGlobalClassReference(JNIEnv* env, const char*
class_name)` (lines 33-38).  The characters at `class_name` are passed on as
received. -/
def CreateGlobalClassReference {σ : Type} (jni : JNINativeInterface_ σ)
    (env : σ) (class_name : String) : Option (jclass × σ) :=
  -- jclass local_class = env->FindClass(class_name);
  match jni.FindClass env class_name with
  | none => none
  | some (local_class, env1) =>
    -- jclass global_class = (jclass)env->NewGlobalRef(local_class);
    match jni.NewGlobalRef env1 local_class with
    | none => none
    | some (global_class, env2) =>
      -- env->DeleteLocalRef(local_class);
      match jni.DeleteLocalRef env2 local_class with
      | none => none
      -- return global_class;
      | some env3 => some (global_class, env3)

/-- The helper `jmethodID GetMethodID(JNIEnv* env, jclass this_class, const
char* name, const char* sig)` (lines 40-43). -/
def GetMethodID {σ : Type} (jni : JNINativeInterface_ σ) (env : σ)
    (this_class : jclass) (name sig : String) : Option (jmethodID × σ) :=
  -- jmethodID ret = env->GetMethodID(this_class, name, sig);
  match jni.GetMethodID env this_class name sig with
  | none => none
  -- return ret;
  | some (ret, env1) => some (ret, env1)

/-- The behaviour section 4.2 of the specification gives `resolve_method`: one
call of the environment's method resolution with the arguments as received. -/
def resolve_method_spec {σ : Type} (jni : JNINativeInterface_ σ) (env : σ)
    (class_handle : jclass) (method_name signature : String) :
    Option (jmethodID × σ) :=
  jni.GetMethodID env class_handle method_name signature

/-! ## Recording the calls made through the function table -/

/-- One call through the function table, with its arguments and the value it
returned. -/
inductive JNICall where
  | FindClass (name : String) (ret : jclass)
  | NewGlobalRef (obj : jobject) (ret : jobject)
  | DeleteLocalRef (obj : jobject)
  | DeleteGlobalRef (obj : jobject)
  | GetMethodID (cls : jclass) (name sig : String) (ret : jmethodID)
  | GetStringUTFChars (str : jstring) (ret : CharPtr)
  | ReleaseStringUTFChars (str : jstring) (chars : CharPtr)
deriving DecidableEq, Repr

/-- The same function table, with every completed call appended to a log kept
next to the state. -/
def traced {σ : Type} (jni : JNINativeInterface_ σ) :
    JNINativeInterface_ (σ × List JNICall) where
  FindClass := fun st name =>
    match jni.FindClass st.1 name with
    | none => none
    | some (r, s) => some (r, (s, st.2 ++ [JNICall.FindClass name r]))
  NewGlobalRef := fun st obj =>
    match jni.NewGlobalRef st.1 obj with
    | none => none
    | some (r, s) => some (r, (s, st.2 ++ [JNICall.NewGlobalRef obj r]))
  DeleteLocalRef := fun st obj =>
    match jni.DeleteLocalRef st.1 obj with
    | none => none
    | some s => some (s, st.2 ++ [JNICall.DeleteLocalRef obj])
  DeleteGlobalRef := fun st obj =>
    match jni.DeleteGlobalRef st.1 obj with
    | none => none
    | some s => some (s, st.2 ++ [JNICall.DeleteGlobalRef obj])
  GetMethodID := fun st cls name sig =>
    match jni.GetMethodID st.1 cls name sig with
    | none => none
    | some (r, s) => some (r, (s, st.2 ++ [JNICall.GetMethodID cls name sig r]))
  GetStringUTFChars := fun st str =>
    match jni.GetStringUTFChars st.1 str with
    | none => none
    | some (r, s) => some (r, (s, st.2 ++ [JNICall.GetStringUTFChars str r]))
  ReleaseStringUTFChars := fun st str chars =>
    match jni.ReleaseStringUTFChars st.1 str chars with
    | none => none
    | some s => some (s, st.2 ++ [JNICall.ReleaseStringUTFChars str chars])
  readCString := fun st p => jni.readCString st.1 p

/-! ## A reference model of the virtual machine behind the function table

The Java virtual machine is not part of the repository.  The model below
follows the Java Native Interface specification for the functions the helpers
call.  Allocation never fails in it (running out of memory is outside the
model), and, as in HotSpot, a call is serviced while an exception is pending.
-/

/-- An object of the virtual machine: a class, named as `FindClass` names it,
or a string with its text. -/
inductive Obj where
  | cls (name : String)
  | str (text : String)
deriving DecidableEq, Repr

/-- The exceptions the modelled functions raise. -/
inductive Throwable where
  | NoClassDefFoundError (name : String)
  | NoSuchMethodError (cls name sig : String)
deriving DecidableEq, Repr

/-- The state of the environment: the classes the class loader finds, the
methods they declare, the classes already set up for use, the live local and
global references with the objects they refer to, the character buffers handed
out by `GetStringUTFChars` and not yet released (address, text of the string
they were taken from, bytes), and the pending exception. -/
structure JVM where
  classPath : List String
  methods : List MethodRef
  initClasses : List String
  localRefs : List (Nat × Obj)
  globalRefs : List (Nat × Obj)
  utfBuffers : List (Nat × String × List Nat)
  pending : Option Throwable
deriving DecidableEq, Repr

/-- The entry stored under a key, the first one from the front. -/
def lookupKey {β : Type} (n : Nat) : List (Nat × β) → Option β
  | [] => none
  | (k, v) :: rest => if k = n then some v else lookupKey n rest

/-- The table without the entry stored under a key (the first from the front). -/
def removeKey {β : Type} (n : Nat) : List (Nat × β) → List (Nat × β)
  | [] => []
  | (k, v) :: rest => if k = n then rest else (k, v) :: removeKey n rest

/-- A key above every key of the table, and above zero. -/
def freshKey {β : Type} : List (Nat × β) → Nat
  | [] => 1
  | (k, _) :: rest => max (k + 1) (freshKey rest)

/-- Modified UTF-8 of one character, as the JNI specification defines it: the
null character takes two bytes, and a character above `U+FFFF` is written as
its two surrogates, three bytes each. -/
def modifiedUTF8Char (c : Char) : List Nat :=
  let n := c.toNat
  if n = 0 then [0xC0, 0x80]
  else if n < 0x80 then [n]
  else if n < 0x800 then [0xC0 + n / 64, 0x80 + n % 64]
  else if n < 0x10000 then [0xE0 + n / 4096, 0x80 + n / 64 % 64, 0x80 + n % 64]
  else
    let hi := 0xD800 + (n - 0x10000) / 1024
    let lo := 0xDC00 + (n - 0x10000) % 1024
    [0xE0 + hi / 4096, 0x80 + hi / 64 % 64, 0x80 + hi % 64,
     0xE0 + lo / 4096, 0x80 + lo / 64 % 64, 0x80 + lo % 64]

/-- Modified UTF-8 of a text. -/
def modifiedUTF8 (s : String) : std_string :=
  s.toList.flatMap modifiedUTF8Char

namespace JVM

/-- The object a handle refers to; `none` for the null handle and for a handle
that is not live. -/
def resolve (env : JVM) : jobject → Option Obj
  | .null => none
  | .localRef n => lookupKey n env.localRefs
  | .globalRef n => lookupKey n env.globalRefs

/-- Model of `FindClass`: a new local reference to the class, or the null handle with
`NoClassDefFoundError` pending when the class is not found. -/
def FindClass (env : JVM) (name : String) : Option (jclass × JVM) :=
  if name ∈ env.classPath then
    let l := freshKey env.localRefs
    some (.localRef l, { env with localRefs := (l, Obj.cls name) :: env.localRefs })
  else
    some (.null, { env with pending := some (Throwable.NoClassDefFoundError name) })

/-- Model of `NewGlobalRef`: a new global reference to the object the argument refers
to; the null handle, and nothing created, when the argument is the null handle. -/
def NewGlobalRef (env : JVM) (obj : jobject) : Option (jobject × JVM) :=
  match obj with
  | .null => some (.null, env)
  | _ =>
    match env.resolve obj with
    | none => none
    | some o =>
      let g := freshKey env.globalRefs
      some (.globalRef g, { env with globalRefs := (g, o) :: env.globalRefs })

/-- Model of `DeleteLocalRef`: the local reference stops being live; nothing happens for
the null handle. -/
def DeleteLocalRef (env : JVM) (obj : jobject) : Option JVM :=
  match obj with
  | .null => some env
  | .localRef n =>
    match lookupKey n env.localRefs with
    | none => none
    | some _ => some { env with localRefs := removeKey n env.localRefs }
  | .globalRef _ => none

/-- Model of `DeleteGlobalRef`: the global reference stops being live; nothing happens
for the null handle. -/
def DeleteGlobalRef (env : JVM) (obj : jobject) : Option JVM :=
  match obj with
  | .null => some env
  | .globalRef n =>
    match lookupKey n env.globalRefs with
    | none => none
    | some _ => some { env with globalRefs := removeKey n env.globalRefs }
  | .localRef _ => none

/-- Model of `GetMethodID`: sets the class up for use if it is not yet, then gives the
descriptor of the method with that name and signature, or the null descriptor
with `NoSuchMethodError` pending when the class declares none. -/
def GetMethodID (env : JVM) (cls : jclass) (name sig : String) :
    Option (jmethodID × JVM) :=
  match env.resolve cls with
  | some (Obj.cls c) =>
    let env1 :=
      if c ∈ env.initClasses then env
      else { env with initClasses := c :: env.initClasses }
    if MethodRef.mk c name sig ∈ env.methods then
      some (some (MethodRef.mk c name sig), env1)
    else
      some (none, { env1 with pending := some (Throwable.NoSuchMethodError c name sig) })
  | _ => none

/-- Model of `GetStringUTFChars`: a new NUL-terminated array holding the modified UTF-8
of the string. -/
def GetStringUTFChars (env : JVM) (str : jstring) : Option (CharPtr × JVM) :=
  match env.resolve str with
  | some (Obj.str s) =>
    let p := freshKey env.utfBuffers
    some (p, { env with utfBuffers := (p, s, modifiedUTF8 s ++ [0]) :: env.utfBuffers })
  | _ => none

/-- Model of `ReleaseStringUTFChars`: the array stops being available; it has to be one
handed out by `GetStringUTFChars` for that string and not yet released. -/
def ReleaseStringUTFChars (env : JVM) (str : jstring) (chars : CharPtr) : Option JVM :=
  match env.resolve str, lookupKey chars env.utfBuffers with
  | some (Obj.str s), some (owner, _) =>
    if s = owner then some { env with utfBuffers := removeKey chars env.utfBuffers }
    else none
  | _, _ => none

/-- The bytes before the first NUL of the array at an address; `none` when no
array is available there or it has no NUL. -/
def readCString (env : JVM) (p : CharPtr) : Option std_string :=
  match lookupKey p env.utfBuffers with
  | some (_, bytes) => if 0 ∈ bytes then some (bytes.takeWhile (fun b => b ≠ 0)) else none
  | none => none

end JVM

/-- The function table of the reference model. -/
def jvm : JNINativeInterface_ JVM where
  FindClass := JVM.FindClass
  NewGlobalRef := JVM.NewGlobalRef
  DeleteLocalRef := JVM.DeleteLocalRef
  DeleteGlobalRef := JVM.DeleteGlobalRef
  GetMethodID := JVM.GetMethodID
  GetStringUTFChars := JVM.GetStringUTFChars
  ReleaseStringUTFChars := JVM.ReleaseStringUTFChars
  readCString := JVM.readCString

/-! ## Calling the helpers in sequence -/

/-- A caller that runs `GetCompressionType` once per handle of the list, in
order, under the same environment, and collects the kinds; it stops at the
first call that throws. -/
def resolveAll {σ ε κ : Type} (jni : JNINativeInterface_ σ)
    (m : std_string → Except ε κ) (env : σ) :
    List jstring → Option (Except ε (List κ) × σ)
  | [] => some (.ok [], env)
  | h :: rest =>
    match GetCompressionType jni m env h with
    | none => none
    | some (.error e, env1) => some (.error e, env1)
    | some (.ok k, env1) =>
      match resolveAll jni m env1 rest with
      | none => none
      | some (.error e, env2) => some (.error e, env2)
      | some (.ok ks, env2) => some (.ok (k :: ks), env2)

/-! ## Concrete data for the instances -/

deriving instance DecidableEq for Except

/-- The bytes of a C++ string literal of ASCII characters. -/
def ascii (s : String) : std_string := s.toList.map Char.toNat

/-- Compression kinds of an example table. -/
inductive SampleKind where
  | NONE | ZLIB | SNAPPY | LZ4 | ZSTD
deriving DecidableEq, Repr

/-- An example of a name-to-kind table that throws on a name it does not know.
It only instantiates the theorems; the theorems hold for every table. -/
def sampleTable (name : std_string) : Except String SampleKind :=
  if name = ascii "uncompressed" then .ok .NONE
  else if name = ascii "zlib" then .ok .ZLIB
  else if name = ascii "snappy" then .ok .SNAPPY
  else if name = ascii "lz4" then .ok .LZ4
  else if name = ascii "zstd" then .ok .ZSTD
  else .error "compression codec not supported"

/-- An example state: one class with one method, and two strings held by local
references. -/
def sampleEnv : JVM where
  classPath := ["java/lang/String"]
  methods := [MethodRef.mk "java/lang/String" "length" "()I"]
  initClasses := []
  localRefs := [(1, Obj.str "zstd"), (2, Obj.str "bogus")]
  globalRefs := []
  utfBuffers := []
  pending := none

/-! ## States and predicates the statements use -/

/-- The state in which the buffer `GetStringUTFChars` hands out for a string of
text `s` is outstanding. -/
def withBuffer (env : JVM) (s : String) : JVM :=
  { env with utfBuffers :=
      (freshKey env.utfBuffers, s, modifiedUTF8 s ++ [0]) :: env.utfBuffers }

/-- The state in which one more global reference, to the class of that name,
is live. -/
def withGlobal (env : JVM) (class_name : String) : JVM :=
  { env with globalRefs :=
      (freshKey env.globalRefs, Obj.cls class_name) :: env.globalRefs }

/-- Whether a handle holds a string whose modified UTF-8 the table maps to a
kind. -/
def recognised {ε κ : Type} (m : std_string → Except ε κ) (env : JVM)
    (h : jstring) : Bool :=
  match env.resolve h with
  | some (Obj.str s) =>
    match m (modifiedUTF8 s) with
    | .ok _ => true
    | .error _ => false
  | _ => false

/-! ## Tables and keys -/

theorem lookupKey_cons_self {β : Type} (k : Nat) (v : β) (xs : List (Nat × β)) :
    lookupKey k ((k, v) :: xs) = some v := by
  simp [lookupKey]

theorem removeKey_cons_self {β : Type} (k : Nat) (v : β) (xs : List (Nat × β)) :
    removeKey k ((k, v) :: xs) = xs := by
  simp [removeKey]

theorem lt_freshKey {β : Type} (xs : List (Nat × β)) (k : Nat) (v : β)
    (h : (k, v) ∈ xs) : k < freshKey xs := by
  induction xs with
  | nil => cases h
  | cons x rest ih =>
    obtain ⟨k0, v0⟩ := x
    simp only [freshKey]
    rcases List.mem_cons.mp h with heq | hmem
    · cases heq
      omega
    · have := ih hmem
      omega

theorem lookupKey_eq_some_mem {β : Type} (xs : List (Nat × β)) (k : Nat) (v : β)
    (h : lookupKey k xs = some v) : (k, v) ∈ xs := by
  induction xs with
  | nil => simp [lookupKey] at h
  | cons x rest ih =>
    obtain ⟨k0, v0⟩ := x
    simp only [lookupKey] at h
    split at h
    · rename_i hk
      cases h
      subst hk
      exact List.mem_cons_self _ _
    · exact List.mem_cons_of_mem _ (ih h)

theorem freshKey_cons_fresh {β : Type} (xs : List (Nat × β)) (v : β) :
    freshKey ((freshKey xs, v) :: xs) = freshKey xs + 1 := by
  simp [freshKey]

theorem lookupKey_freshKey {β : Type} (xs : List (Nat × β)) :
    lookupKey (freshKey xs) xs = none := by
  cases hl : lookupKey (freshKey xs) xs with
  | none => rfl
  | some v =>
    have := lt_freshKey xs _ v (lookupKey_eq_some_mem xs _ v hl)
    omega

/-! ## Modified UTF-8 has no NUL byte -/

theorem zero_not_mem_modifiedUTF8Char (c : Char) : 0 ∉ modifiedUTF8Char c := by
  unfold modifiedUTF8Char
  simp only []
  split_ifs <;> simp <;> omega

theorem zero_not_mem_modifiedUTF8 (s : String) : 0 ∉ modifiedUTF8 s := by
  unfold modifiedUTF8
  intro h
  rcases List.mem_flatMap.mp h with ⟨c, _, hc⟩
  exact zero_not_mem_modifiedUTF8Char c hc

theorem takeWhile_append_nul (xs : List Nat) (h : 0 ∉ xs) :
    (xs ++ [0]).takeWhile (fun b => b ≠ 0) = xs := by
  induction xs with
  | nil => simp [List.takeWhile]
  | cons x rest ih =>
    have hx : x ≠ 0 := fun e => h (e ▸ List.mem_cons_self _ _)
    have hr : 0 ∉ rest := fun e => h (List.mem_cons_of_mem _ e)
    simpa [List.takeWhile, hx] using ih hr

/-! ## What the helpers do in the reference model -/

theorem resolve_utfBuffers (env : JVM) (bufs : List (Nat × String × List Nat))
    (h : jobject) : JVM.resolve { env with utfBuffers := bufs } h = env.resolve h := by
  cases h <;> rfl

theorem readCString_fresh (env : JVM) (s : String) :
    JVM.readCString
      { env with utfBuffers :=
          (freshKey env.utfBuffers, s, modifiedUTF8 s ++ [0]) :: env.utfBuffers }
      (freshKey env.utfBuffers) = some (modifiedUTF8 s) := by
  have h := takeWhile_append_nul _ (zero_not_mem_modifiedUTF8 s)
  simpa [JVM.readCString, lookupKey] using h

theorem GetCompressionType_jvm_ok {ε κ : Type} (m : std_string → Except ε κ)
    (env : JVM) (h : jstring) (s : String) (k : κ)
    (hs : env.resolve h = some (Obj.str s)) (hm : m (modifiedUTF8 s) = .ok k) :
    GetCompressionType jvm m env h = some (.ok k, env) := by
  have hr := readCString_fresh env s
  simp [GetCompressionType, jvm, JVM.GetStringUTFChars, hs, hr, hm,
    JVM.ReleaseStringUTFChars, resolve_utfBuffers, lookupKey, removeKey]

theorem GetCompressionType_jvm_error {ε κ : Type} (m : std_string → Except ε κ)
    (env : JVM) (h : jstring) (s : String) (e : ε)
    (hs : env.resolve h = some (Obj.str s)) (hm : m (modifiedUTF8 s) = .error e) :
    GetCompressionType jvm m env h = some (.error e, withBuffer env s) := by
  have hr := readCString_fresh env s
  simp [GetCompressionType, jvm, JVM.GetStringUTFChars, hs, hr, hm, withBuffer]

theorem GetCompressionType_traced_ok {ε κ : Type} (m : std_string → Except ε κ)
    (env : JVM) (log : List JNICall) (h : jstring) (s : String) (k : κ)
    (hs : env.resolve h = some (Obj.str s)) (hm : m (modifiedUTF8 s) = .ok k) :
    GetCompressionType (traced jvm) m (env, log) h =
      some (.ok k, (env, log ++
        [JNICall.GetStringUTFChars h (freshKey env.utfBuffers),
         JNICall.ReleaseStringUTFChars h (freshKey env.utfBuffers)])) := by
  have hr := readCString_fresh env s
  simp [GetCompressionType, traced, jvm, JVM.GetStringUTFChars, hs, hr, hm,
    JVM.ReleaseStringUTFChars, resolve_utfBuffers, lookupKey, removeKey]

theorem recognised_iff {ε κ : Type} (m : std_string → Except ε κ) (env : JVM)
    (h : jstring) (hrec : recognised m env h = true) :
    ∃ s k, env.resolve h = some (Obj.str s) ∧ m (modifiedUTF8 s) = .ok k := by
  unfold recognised at hrec
  split at hrec
  · rename_i s hs
    split at hrec
    · rename_i k hk
      exact ⟨s, k, hs, hk⟩
    · cases hrec
  · cases hrec

theorem resolveAll_recognised {ε κ : Type} (m : std_string → Except ε κ)
    (env : JVM) (hs : List jstring)
    (hrec : ∀ h ∈ hs, recognised m env h = true) (log : List JNICall) :
    ∃ ks : List κ, ks.length = hs.length ∧
      resolveAll jvm m env hs = some (.ok ks, env) ∧
      resolveAll (traced jvm) m (env, log) hs =
        some (.ok ks, (env, log ++ hs.flatMap (fun h =>
          [JNICall.GetStringUTFChars h (freshKey env.utfBuffers),
           JNICall.ReleaseStringUTFChars h (freshKey env.utfBuffers)]))) := by
  induction hs generalizing log with
  | nil => exact ⟨[], rfl, rfl, by simp [resolveAll]⟩
  | cons h rest ih =>
    obtain ⟨s, k, hs1, hm1⟩ := recognised_iff m env h (hrec h (List.mem_cons_self _ _))
    have hrest : ∀ x ∈ rest, recognised m env x = true :=
      fun x hx => hrec x (List.mem_cons_of_mem _ hx)
    obtain ⟨ks, hlen, hplain, htraced⟩ := ih hrest
      (log ++ [JNICall.GetStringUTFChars h (freshKey env.utfBuffers),
               JNICall.ReleaseStringUTFChars h (freshKey env.utfBuffers)])
    refine ⟨k :: ks, by simp [hlen], ?_, ?_⟩
    · simp [resolveAll, GetCompressionType_jvm_ok m env h s k hs1 hm1, hplain]
    · simp [resolveAll, GetCompressionType_traced_ok m env log h s k hs1 hm1, htraced]

/-! ## The codec resolver -/

/-- C1: for every state of the environment, every string handle whose text is
`s` and every name-to-kind table `m`, if `m` maps the extracted text (the
modified UTF-8 of `s`, read whole) to the kind `k`, then `GetCompressionType`
returns exactly `k`. -/
theorem C1_GetCompressionType_returns_mapped_kind {ε κ : Type}
    (m : std_string → Except ε κ) (env : JVM) (codec_jstr : jstring)
    (s : String) (k : κ)
    (hs : env.resolve codec_jstr = some (Obj.str s))
    (hm : m (modifiedUTF8 s) = .ok k) :
    (GetCompressionType jvm m env codec_jstr).map Prod.fst = some (.ok k) := by
  rw [GetCompressionType_jvm_ok m env codec_jstr s k hs hm]
  rfl

/-- Instance of C1: the handle holding "zstd" under the example table. -/
theorem C1_GetCompressionType_returns_mapped_kind_witness :
    (GetCompressionType jvm sampleTable sampleEnv (.localRef 1)).map Prod.fst
      = some (.ok SampleKind.ZSTD) :=
  C1_GetCompressionType_returns_mapped_kind sampleTable sampleEnv (.localRef 1)
    "zstd" SampleKind.ZSTD (by decide) (by decide)

/-- C2: for every string handle whose extracted text the table `m` does not
know, so that `m` throws the error `e`, `GetCompressionType` throws that same
`e` to its caller and returns no kind. -/
theorem C2_GetCompressionType_propagates_unknown_codec {ε κ : Type}
    (m : std_string → Except ε κ) (env : JVM) (codec_jstr : jstring)
    (s : String) (e : ε)
    (hs : env.resolve codec_jstr = some (Obj.str s))
    (hm : m (modifiedUTF8 s) = .error e) :
    (GetCompressionType jvm m env codec_jstr).map Prod.fst = some (.error e) := by
  rw [GetCompressionType_jvm_error m env codec_jstr s e hs hm]
  rfl

/-- Instance of C2: the handle holding "bogus" under the example table. -/
theorem C2_GetCompressionType_propagates_unknown_codec_witness :
    (GetCompressionType jvm sampleTable sampleEnv (.localRef 2)).map Prod.fst
      = some (.error "compression codec not supported") :=
  C2_GetCompressionType_propagates_unknown_codec sampleTable sampleEnv (.localRef 2)
    "bogus" "compression codec not supported" (by decide) (by decide)

/-- C3, at the input on which it fails: with the text "bogus", which the
example table rejects by throwing, `GetCompressionType` leaves with the
exception while the buffer obtained from `GetStringUTFChars` is still
outstanding; no buffer was outstanding before the call. -/
theorem C3_buffer_outstanding_after_throw :
    sampleEnv.utfBuffers = [] ∧
    (GetCompressionType jvm sampleTable sampleEnv (.localRef 2)).map
        (fun r => (r.1, r.2.utfBuffers))
      = some (.error "compression codec not supported",
              [(1, "bogus", [98, 111, 103, 117, 115, 0])]) := by
  refine ⟨rfl, ?_⟩
  rw [GetCompressionType_jvm_error sampleTable sampleEnv (.localRef 2) "bogus"
    "compression codec not supported" (by decide) (by decide)]
  decide

/-- C4: for every state of the environment and every sequence of handles that
hold recognised codec names (one call per handle, any number of calls), the
calls all return and the state afterwards equals the initial state: no buffer
stays outstanding and no local or global reference is created or deleted.  The
calls made through the function table are, for each handle in turn, one
`GetStringUTFChars` on it and one `ReleaseStringUTFChars` with the same handle
and the pointer that acquisition returned, and nothing else.  No step is
undefined, so no release meets a buffer that is not outstanding and no read
meets a released buffer. -/
theorem C4_repeated_GetCompressionType_restores_env {ε κ : Type}
    (m : std_string → Except ε κ) (env : JVM) (hs : List jstring)
    (hrec : ∀ h ∈ hs, recognised m env h = true) :
    ∃ ks : List κ, ks.length = hs.length ∧
      resolveAll jvm m env hs = some (.ok ks, env) ∧
      resolveAll (traced jvm) m (env, []) hs =
        some (.ok ks, (env, hs.flatMap (fun h =>
          [JNICall.GetStringUTFChars h (freshKey env.utfBuffers),
           JNICall.ReleaseStringUTFChars h (freshKey env.utfBuffers)]))) := by
  simpa using resolveAll_recognised m env hs hrec []

/-- Instance of C4: three calls in a row on the handle holding "zstd". -/
theorem C4_repeated_GetCompressionType_restores_env_witness :
    ∃ ks : List SampleKind, ks.length = 3 ∧
      resolveAll jvm sampleTable sampleEnv [.localRef 1, .localRef 1, .localRef 1]
        = some (.ok ks, sampleEnv) ∧
      resolveAll (traced jvm) sampleTable (sampleEnv, [])
          [.localRef 1, .localRef 1, .localRef 1]
        = some (.ok ks, (sampleEnv,
            [JNICall.GetStringUTFChars (.localRef 1) 1,
             JNICall.ReleaseStringUTFChars (.localRef 1) 1,
             JNICall.GetStringUTFChars (.localRef 1) 1,
             JNICall.ReleaseStringUTFChars (.localRef 1) 1,
             JNICall.GetStringUTFChars (.localRef 1) 1,
             JNICall.ReleaseStringUTFChars (.localRef 1) 1])) :=
  C4_repeated_GetCompressionType_restores_env sampleTable sampleEnv
    [.localRef 1, .localRef 1, .localRef 1] (by decide)

/-! ## The class and method helpers -/

theorem CreateGlobalClassReference_traced_found (env : JVM) (log : List JNICall)
    (class_name : String) (hfound : class_name ∈ env.classPath) :
    CreateGlobalClassReference (traced jvm) (env, log) class_name =
      some (.globalRef (freshKey env.globalRefs),
        (withGlobal env class_name, log ++
          [JNICall.FindClass class_name (.localRef (freshKey env.localRefs)),
           JNICall.NewGlobalRef (.localRef (freshKey env.localRefs))
             (.globalRef (freshKey env.globalRefs)),
           JNICall.DeleteLocalRef (.localRef (freshKey env.localRefs))])) := by
  simp [CreateGlobalClassReference, traced, jvm, JVM.FindClass, hfound,
    JVM.NewGlobalRef, JVM.resolve, JVM.DeleteLocalRef, lookupKey, removeKey, withGlobal]

theorem CreateGlobalClassReference_jvm_found (env : JVM)
    (class_name : String) (hfound : class_name ∈ env.classPath) :
    CreateGlobalClassReference jvm env class_name =
      some (.globalRef (freshKey env.globalRefs), withGlobal env class_name) := by
  simp [CreateGlobalClassReference, jvm, JVM.FindClass, hfound,
    JVM.NewGlobalRef, JVM.resolve, JVM.DeleteLocalRef, lookupKey, removeKey, withGlobal]

/-- C5: for every state of the environment and every class name the lookup
finds, `CreateGlobalClassReference` calls `FindClass`, then `NewGlobalRef` on
the local handle found, then `DeleteLocalRef` on that same local handle, and
nothing else, and returns the handle `NewGlobalRef` produced.  Afterwards the
global reference table is the former one with one more entry, a handle that
was not live before and that refers to the class looked up; the live local
references are those from before the call; the local handle is dead and its
deletion is the last use made of it. -/
theorem C5_CreateGlobalClassReference_promotes (env : JVM) (class_name : String)
    (hfound : class_name ∈ env.classPath) :
    ∃ env3 : JVM,
      CreateGlobalClassReference jvm env class_name =
        some (.globalRef (freshKey env.globalRefs), env3) ∧
      CreateGlobalClassReference (traced jvm) (env, []) class_name =
        some (.globalRef (freshKey env.globalRefs), (env3,
          [JNICall.FindClass class_name (.localRef (freshKey env.localRefs)),
           JNICall.NewGlobalRef (.localRef (freshKey env.localRefs))
             (.globalRef (freshKey env.globalRefs)),
           JNICall.DeleteLocalRef (.localRef (freshKey env.localRefs))])) ∧
      env3.globalRefs = (freshKey env.globalRefs, Obj.cls class_name) :: env.globalRefs ∧
      env3.globalRefs.length = env.globalRefs.length + 1 ∧
      env.resolve (.globalRef (freshKey env.globalRefs)) = none ∧
      env3.resolve (.globalRef (freshKey env.globalRefs)) = some (Obj.cls class_name) ∧
      env3.localRefs = env.localRefs ∧
      env3.resolve (.localRef (freshKey env.localRefs)) = none := by
  refine ⟨withGlobal env class_name,
    CreateGlobalClassReference_jvm_found env class_name hfound, ?_, rfl, ?_, ?_, ?_, rfl, ?_⟩
  · simpa using CreateGlobalClassReference_traced_found env [] class_name hfound
  · simp [withGlobal]
  · exact lookupKey_freshKey env.globalRefs
  · simp [withGlobal, JVM.resolve, lookupKey]
  · exact lookupKey_freshKey env.localRefs

/-- Instance of C5: the class of the example state. -/
theorem C5_CreateGlobalClassReference_promotes_witness :
    ∃ env3 : JVM,
      CreateGlobalClassReference jvm sampleEnv "java/lang/String" =
        some (.globalRef 1, env3) ∧
      CreateGlobalClassReference (traced jvm) (sampleEnv, []) "java/lang/String" =
        some (.globalRef 1, (env3,
          [JNICall.FindClass "java/lang/String" (.localRef 3),
           JNICall.NewGlobalRef (.localRef 3) (.globalRef 1),
           JNICall.DeleteLocalRef (.localRef 3)])) ∧
      env3.globalRefs = (1, Obj.cls "java/lang/String") :: sampleEnv.globalRefs ∧
      env3.globalRefs.length = sampleEnv.globalRefs.length + 1 ∧
      sampleEnv.resolve (.globalRef 1) = none ∧
      env3.resolve (.globalRef 1) = some (Obj.cls "java/lang/String") ∧
      env3.localRefs = sampleEnv.localRefs ∧
      env3.resolve (.localRef 3) = none :=
  C5_CreateGlobalClassReference_promotes sampleEnv "java/lang/String" (by decide)

/-- C6: for every state of the environment and every class name the lookup
finds, two calls of `CreateGlobalClassReference` with that name return two
different handles, each a live entry of the global reference table (which has
two more entries than at the start) and each referring to that class; deleting
either of them with `DeleteGlobalRef` leaves the other live and referring to
the class. -/
theorem C6_CreateGlobalClassReference_twice_independent (env : JVM)
    (class_name : String) (hfound : class_name ∈ env.classPath) :
    ∃ (g1 g2 : jclass) (env1 env2 : JVM),
      CreateGlobalClassReference jvm env class_name = some (g1, env1) ∧
      CreateGlobalClassReference jvm env1 class_name = some (g2, env2) ∧
      g1 ≠ g2 ∧
      env2.globalRefs.length = env.globalRefs.length + 2 ∧
      env2.resolve g1 = some (Obj.cls class_name) ∧
      env2.resolve g2 = some (Obj.cls class_name) ∧
      (∃ env3, jvm.DeleteGlobalRef env2 g1 = some env3 ∧
        env3.resolve g2 = some (Obj.cls class_name)) ∧
      (∃ env4, jvm.DeleteGlobalRef env2 g2 = some env4 ∧
        env4.resolve g1 = some (Obj.cls class_name)) := by
  have hfound1 : class_name ∈ (withGlobal env class_name).classPath := hfound
  refine ⟨.globalRef (freshKey env.globalRefs),
    .globalRef (freshKey (withGlobal env class_name).globalRefs),
    withGlobal env class_name, withGlobal (withGlobal env class_name) class_name,
    CreateGlobalClassReference_jvm_found env class_name hfound,
    CreateGlobalClassReference_jvm_found _ class_name hfound1, ?_, ?_, ?_, ?_, ?_, ?_⟩
  · simp [withGlobal, freshKey_cons_fresh]
  · simp [withGlobal]
  · simp [withGlobal, JVM.resolve, lookupKey, freshKey_cons_fresh]
  · simp [withGlobal, JVM.resolve, lookupKey]
  · simp [jvm, JVM.DeleteGlobalRef, withGlobal, JVM.resolve, lookupKey, removeKey,
      freshKey_cons_fresh]
  · simp [jvm, JVM.DeleteGlobalRef, withGlobal, JVM.resolve, lookupKey, removeKey]

/-- Instance of C6: the class of the example state. -/
theorem C6_CreateGlobalClassReference_twice_independent_witness :
    ∃ (g1 g2 : jclass) (env1 env2 : JVM),
      CreateGlobalClassReference jvm sampleEnv "java/lang/String" = some (g1, env1) ∧
      CreateGlobalClassReference jvm env1 "java/lang/String" = some (g2, env2) ∧
      g1 ≠ g2 ∧
      env2.globalRefs.length = sampleEnv.globalRefs.length + 2 ∧
      env2.resolve g1 = some (Obj.cls "java/lang/String") ∧
      env2.resolve g2 = some (Obj.cls "java/lang/String") ∧
      (∃ env3, jvm.DeleteGlobalRef env2 g1 = some env3 ∧
        env3.resolve g2 = some (Obj.cls "java/lang/String")) ∧
      (∃ env4, jvm.DeleteGlobalRef env2 g2 = some env4 ∧
        env4.resolve g1 = some (Obj.cls "java/lang/String")) :=
  C6_CreateGlobalClassReference_twice_independent sampleEnv "java/lang/String" (by decide)

/-- C7: for every state of the environment and every class name the lookup
does not find, `FindClass` returns the null handle and leaves its exception
pending, and `CreateGlobalClassReference` returns the null handle in exactly
the state the lookup left: the pending exception is the one the lookup set,
and the global and the local references are those from before the call. -/
theorem C7_CreateGlobalClassReference_lookup_failure (env : JVM)
    (class_name : String) (hmissing : class_name ∉ env.classPath) :
    ∃ env1 : JVM,
      jvm.FindClass env class_name = some (.null, env1) ∧
      CreateGlobalClassReference jvm env class_name = some (.null, env1) ∧
      env1.pending = some (Throwable.NoClassDefFoundError class_name) ∧
      env1.globalRefs = env.globalRefs ∧
      env1.localRefs = env.localRefs := by
  refine ⟨{ env with pending := some (Throwable.NoClassDefFoundError class_name) },
    ?_, ?_, rfl, rfl, rfl⟩
  · simp [jvm, JVM.FindClass, hmissing]
  · simp [CreateGlobalClassReference, jvm, JVM.FindClass, hmissing, JVM.NewGlobalRef,
      JVM.DeleteLocalRef]

/-- Instance of C7: a class name the example state does not know. -/
theorem C7_CreateGlobalClassReference_lookup_failure_witness :
    ∃ env1 : JVM,
      jvm.FindClass sampleEnv "no/such/Class" = some (.null, env1) ∧
      CreateGlobalClassReference jvm sampleEnv "no/such/Class" = some (.null, env1) ∧
      env1.pending = some (Throwable.NoClassDefFoundError "no/such/Class") ∧
      env1.globalRefs = sampleEnv.globalRefs ∧
      env1.localRefs = sampleEnv.localRefs :=
  C7_CreateGlobalClassReference_lookup_failure sampleEnv "no/such/Class" (by decide)

/-- C8: for every function table, state, class handle, method name and
signature, the helper `GetMethodID` gives what one call of the environment's
own `GetMethodID` with the same three arguments gives: the same descriptor and
the same state afterwards (or the same undefined behaviour). -/
theorem C8_GetMethodID_is_delegation {σ : Type} (jni : JNINativeInterface_ σ)
    (env : σ) (this_class : jclass) (name sig : String) :
    GetMethodID jni env this_class name sig =
      resolve_method_spec jni env this_class name sig := by
  unfold GetMethodID resolve_method_spec
  cases jni.GetMethodID env this_class name sig with
  | none => rfl
  | some r => rfl

/-- C9: for every state of the environment and every class handle, method name
and signature valid in it (the handle refers to a class that declares a method
of that name and signature), two calls of `GetMethodID` in succession return
the same descriptor, that of this method, and the state after the second call
is the state after the first. -/
theorem C9_GetMethodID_idempotent (env : JVM) (this_class : jclass)
    (c name sig : String)
    (hcls : env.resolve this_class = some (Obj.cls c))
    (hdecl : MethodRef.mk c name sig ∈ env.methods) :
    ∃ env1 : JVM,
      GetMethodID jvm env this_class name sig =
        some (some (MethodRef.mk c name sig), env1) ∧
      GetMethodID jvm env1 this_class name sig =
        some (some (MethodRef.mk c name sig), env1) := by
  by_cases hinit : c ∈ env.initClasses
  · refine ⟨env, ?_, ?_⟩ <;>
      simp [GetMethodID, jvm, JVM.GetMethodID, hcls, hdecl, hinit]
  · have hcls1 : JVM.resolve { env with initClasses := c :: env.initClasses } this_class
        = some (Obj.cls c) := by
      rw [← hcls]
      cases this_class <;> rfl
    refine ⟨{ env with initClasses := c :: env.initClasses }, ?_, ?_⟩
    · simp [GetMethodID, jvm, JVM.GetMethodID, hcls, hdecl, hinit]
    · simp [GetMethodID, jvm, JVM.GetMethodID, hcls1, hdecl]

/-- Instance of C9: `String.length` through a global reference to its class. -/
theorem C9_GetMethodID_idempotent_witness :
    ∃ env1 : JVM,
      GetMethodID jvm (withGlobal sampleEnv "java/lang/String") (.globalRef 1)
          "length" "()I" =
        some (some (MethodRef.mk "java/lang/String" "length" "()I"), env1) ∧
      GetMethodID jvm env1 (.globalRef 1) "length" "()I" =
        some (some (MethodRef.mk "java/lang/String" "length" "()I"), env1) :=
  C9_GetMethodID_idempotent (withGlobal sampleEnv "java/lang/String") (.globalRef 1)
    "java/lang/String" "length" "()I" (by decide) (by decide)

/-- C10: for every state of the environment, every handle that refers to a
class and every method name the class declares, if the class declares no method
of that name with the signature given, the environment's `GetMethodID` returns
the null descriptor and leaves `NoSuchMethodError` pending, and the helper
`GetMethodID` returns the null descriptor in exactly that state. -/
theorem C10_GetMethodID_bad_signature (env : JVM) (this_class : jclass)
    (c name sig : String)
    (hcls : env.resolve this_class = some (Obj.cls c))
    (hname : ∃ sig0, MethodRef.mk c name sig0 ∈ env.methods)
    (hsig : MethodRef.mk c name sig ∉ env.methods) :
    ∃ env1 : JVM,
      jvm.GetMethodID env this_class name sig = some (none, env1) ∧
      GetMethodID jvm env this_class name sig = some (none, env1) ∧
      env1.pending = some (Throwable.NoSuchMethodError c name sig) := by
  have _ := hname
  by_cases hinit : c ∈ env.initClasses
  · refine ⟨{ env with pending := some (Throwable.NoSuchMethodError c name sig) },
      ?_, ?_, rfl⟩ <;>
      simp [GetMethodID, jvm, JVM.GetMethodID, hcls, hsig, hinit]
  · refine ⟨{ env with initClasses := c :: env.initClasses,
                       pending := some (Throwable.NoSuchMethodError c name sig) },
      ?_, ?_, rfl⟩ <;>
      simp [GetMethodID, jvm, JVM.GetMethodID, hcls, hsig, hinit]

/-- Instance of C10: `String.length` asked for with the signature `()J`. -/
theorem C10_GetMethodID_bad_signature_witness :
    ∃ env1 : JVM,
      jvm.GetMethodID (withGlobal sampleEnv "java/lang/String") (.globalRef 1)
          "length" "()J" = some (none, env1) ∧
      GetMethodID jvm (withGlobal sampleEnv "java/lang/String") (.globalRef 1)
          "length" "()J" = some (none, env1) ∧
      env1.pending = some (Throwable.NoSuchMethodError "java/lang/String" "length" "()J") :=
  C10_GetMethodID_bad_signature (withGlobal sampleEnv "java/lang/String") (.globalRef 1)
    "java/lang/String" "length" "()J" (by decide) ⟨"()I", by decide⟩ (by decide)

end JniCommon
